import Mathlib

/-!
Verification of the vlist-vue binding adapter (src/index.ts, with the
sections branch as in the variant source file that pre-resolves header
heights).  The adapter exposes two functions:

* useVList: on the mount signal, if the container handle is populated,
  builds one engine instance from the configuration plus the container,
  applying extensions conditionally in a fixed order, and publishes it;
  on the unmount signal destroys the published instance and clears the
  reference; when the configuration input is reactive, watches its
  items field and forwards defined new collections to setItems.
* useVListEvent: watches an instance reference (immediately and on
  change) and registers the handler on the instance once it is
  non-empty, delegating each event to the current handler value.

JavaScript objects are modelled as Lean structures, `undefined` as
`Option.none`, the DOM container element as a numeric handle, and the
engine builder as a record accumulating the seed configuration and the
list of applied extensions.
-/

namespace VListVue

/-- Scroll target: the global window object or a host element (modelled by a
numeric handle).  Used by the check `config.scroll?.element === window`. -/
inductive ScrollElement
  | window
  | host (id : Nat)
deriving DecidableEq, Repr

/-- Options object accepted by the scrollbar extension (external library
options, modelled abstractly; the empty object is the default value). -/
structure ScrollbarOptions where
  autoHide : Option Bool := none
  size : Option Nat := none
deriving DecidableEq, Repr

/-- Possible values of a scrollbar configuration field: the string "none",
a boolean toggle, or an options object. -/
inductive ScrollbarValue
  | noneStr
  | toggle (b : Bool)
  | obj (o : ScrollbarOptions)
deriving DecidableEq, Repr

/-- JavaScript truthiness of a scrollbar configuration value: the string
"none" is non-empty hence truthy, `false` is falsy, objects are truthy. -/
def ScrollbarValue.truthy : ScrollbarValue → Bool
  | ScrollbarValue.noneStr => true
  | ScrollbarValue.toggle b => b
  | ScrollbarValue.obj _ => true

/-- The `scroll` sub-configuration: optional scroll target element and an
optional scroll-specific scrollbar override. -/
structure ScrollConfig where
  element : Option ScrollElement := none
  scrollbar : Option ScrollbarValue := none
deriving DecidableEq, Repr

/-- The `layout` configuration string. -/
inductive Layout
  | list
  | grid
deriving DecidableEq, Repr

/-- Options for the grid-layout extension (modelled abstractly). -/
structure GridConfig where
  columns : Nat
  gap : Option Nat := none
deriving DecidableEq, Repr

/-- A header height in the groups configuration: either a number of pixels
or a function of a group label and an index. -/
inductive HeaderHeight
  | px (n : Nat)
  | fn (f : String → Nat → Nat)

/-- The `groups` configuration: group resolution, header height, header
template and an optional sticky flag. -/
structure GroupsConfig where
  getGroupForIndex : Nat → String
  headerHeight : Option HeaderHeight := none
  headerTemplate : Option (String → String) := none
  sticky : Option Bool := none

/-- Selection mode strings; `noneMode` stands for the string "none". -/
inductive SelectionMode
  | noneMode
  | single
  | multiple
deriving DecidableEq, Repr

/-- The `selection` configuration: a mode plus further options (modelled by
one abstract optional field, standing for the rest of the object). -/
structure SelectionConfig where
  mode : Option SelectionMode := none
  extra : Option Nat := none
deriving DecidableEq, Repr

/-- The `item` configuration: row height and row template. -/
structure ItemConfig (T : Type) where
  height : Nat
  template : T → String

/-- An async data adapter (modelled abstractly as an offset/limit loader). -/
structure AdapterConfig (T : Type) where
  load : Nat → Nat → List T

/-- Loading-indicator configuration forwarded to the async extension. -/
structure LoadingConfig where
  template : Option String := none
deriving DecidableEq, Repr

/-- UseVListConfig: the engine configuration without the container field
(the composable adds the container itself at mount time). -/
structure Config (T : Type) where
  item : ItemConfig T
  items : Option (List T) := none
  layout : Option Layout := none
  grid : Option GridConfig := none
  groups : Option GroupsConfig := none
  selection : Option SelectionConfig := none
  scroll : Option ScrollConfig := none
  scrollbar : Option ScrollbarValue := none
  adapter : Option (AdapterConfig T) := none
  loading : Option LoadingConfig := none

/-- The full engine configuration: all fields of `Config` plus the
container handle, as produced by the object spread at the vlist call. -/
structure FullConfig (T : Type) where
  item : ItemConfig T
  items : Option (List T)
  layout : Option Layout
  grid : Option GridConfig
  groups : Option GroupsConfig
  selection : Option SelectionConfig
  scroll : Option ScrollConfig
  scrollbar : Option ScrollbarValue
  adapter : Option (AdapterConfig T)
  loading : Option LoadingConfig
  container : Nat

/-- The object spread at the vlist call site: a fresh object holding every
field of the input configuration plus the container handle. -/
def spreadWithContainer {T : Type} (c : Config T) (container : Nat) : FullConfig T :=
  { item := c.item
    items := c.items
    layout := c.layout
    grid := c.grid
    groups := c.groups
    selection := c.selection
    scroll := c.scroll
    scrollbar := c.scrollbar
    adapter := c.adapter
    loading := c.loading
    container := container }

/-- Options passed to the async extension: the adapter, and the loading
configuration only when one is present. -/
structure AsyncOpts (T : Type) where
  adapter : AdapterConfig T
  loading : Option LoadingConfig := none

/-- Options passed to the sections extension: group resolution, a resolved
(numeric, never function-valued) header height, header template and the
sticky flag when specified. -/
structure SectionsOpts where
  getGroupForIndex : Nat → String
  headerHeight : Option Nat := none
  headerTemplate : Option (String → String) := none
  sticky : Option Bool := none

/-- Header-height pre-resolution performed before attaching the sections
extension: a function-valued height is invoked once with the placeholder
arguments "" and 0; a numeric height is forwarded as is. -/
def resolveHeaderHeight : Option HeaderHeight → Option Nat
  | some (HeaderHeight.fn f) => some (f "" 0)
  | some (HeaderHeight.px n) => some n
  | none => none

/-- An extension applied to the builder, with the options it received. -/
inductive Ext (T : Type)
  | page
  | async (o : AsyncOpts T)
  | grid (g : GridConfig)
  | sections (o : SectionsOpts)
  | selection (sc : Option SelectionConfig)
  | scale
  | scrollbar (o : ScrollbarOptions)
  | snapshots

/-- The kind of an extension, forgetting its options. -/
inductive ExtKind
  | page
  | async
  | grid
  | sections
  | selection
  | scale
  | scrollbar
  | snapshots
deriving DecidableEq, Repr

/-- Kind of an applied extension. -/
def Ext.kind {T : Type} : Ext T → ExtKind
  | Ext.page => ExtKind.page
  | Ext.async _ => ExtKind.async
  | Ext.grid _ => ExtKind.grid
  | Ext.sections _ => ExtKind.sections
  | Ext.selection _ => ExtKind.selection
  | Ext.scale => ExtKind.scale
  | Ext.scrollbar _ => ExtKind.scrollbar
  | Ext.snapshots => ExtKind.snapshots

/-- Position of each extension kind in the fixed application order of the
composable. -/
def ExtKind.rank : ExtKind → Nat
  | ExtKind.page => 0
  | ExtKind.async => 1
  | ExtKind.grid => 2
  | ExtKind.sections => 3
  | ExtKind.selection => 4
  | ExtKind.scale => 5
  | ExtKind.scrollbar => 6
  | ExtKind.snapshots => 7

/-- The engine builder: the seed configuration given to `vlist` plus the
extensions applied so far, in application order. -/
structure Builder (T : Type) where
  seed : FullConfig T
  exts : List (Ext T)

/-- The `vlist` entry point: a builder seeded with a full configuration and
no extensions. -/
def vlistInit {T : Type} (fc : FullConfig T) : Builder T :=
  { seed := fc, exts := [] }

/-- The builder's `use` method: appends one extension. -/
def Builder.use {T : Type} (b : Builder T) (e : Ext T) : Builder T :=
  { b with exts := b.exts ++ [e] }

/-- A built engine instance: its configuration and applied extensions. -/
structure Instance (T : Type) where
  config : FullConfig T
  exts : List (Ext T)

/-- The builder's `build` method, finalizing it into an instance. -/
def Builder.build {T : Type} (b : Builder T) : Instance T :=
  { config := b.seed, exts := b.exts }

/-- Resolution `config.selection?.mode || "none"` (every mode string is a
non-empty, hence truthy, string). -/
def resolvedSelectionMode {T : Type} (c : Config T) : SelectionMode :=
  match c.selection.bind SelectionConfig.mode with
  | some m => m
  | none => SelectionMode.noneMode

/-- JavaScript `a || b` on optional scrollbar values: the left value when
present and truthy, otherwise the right value. -/
def jsOrScrollbar : Option ScrollbarValue → Option ScrollbarValue → Option ScrollbarValue
  | some v, b => if v.truthy then some v else b
  | none, b => b

/-- Resolution `config.scroll?.scrollbar || config.scrollbar`. -/
def resolvedScrollbar {T : Type} (c : Config T) : Option ScrollbarValue :=
  jsOrScrollbar (c.scroll.bind ScrollConfig.scrollbar) c.scrollbar

/-- Mount step `if (config.scroll?.element === window) builder.use(withPage())`. -/
def usePageStep {T : Type} (c : Config T) (b : Builder T) : Builder T :=
  if c.scroll.bind ScrollConfig.element = some ScrollElement.window then
    b.use Ext.page
  else b

/-- Mount step `if (config.adapter) builder.use(withAsync({adapter, ...}))`;
the loading key is present exactly when `config.loading` is. -/
def useAsyncStep {T : Type} (c : Config T) (b : Builder T) : Builder T :=
  match c.adapter with
  | some ad => b.use (Ext.async { adapter := ad, loading := c.loading })
  | none => b

/-- Mount step `if (config.layout === "grid" && config.grid)
builder.use(withGrid(config.grid))`. -/
def useGridStep {T : Type} (c : Config T) (b : Builder T) : Builder T :=
  match c.layout, c.grid with
  | some Layout.grid, some g => b.use (Ext.grid g)
  | _, _ => b

/-- Mount step `if (config.groups) builder.use(withSections({...}))`:
forwards group resolution, the pre-resolved header height, the header
template, and the sticky flag exactly when it is defined. -/
def useSectionsStep {T : Type} (c : Config T) (b : Builder T) : Builder T :=
  match c.groups with
  | some groupsConfig =>
      b.use (Ext.sections
        { getGroupForIndex := groupsConfig.getGroupForIndex
          headerHeight := resolveHeaderHeight groupsConfig.headerHeight
          headerTemplate := groupsConfig.headerTemplate
          sticky := groupsConfig.sticky })
  | none => b

/-- Mount step attaching the selection extension: the full selection
configuration when the resolved mode is not "none", else the explicit
object with mode "none" and nothing else. -/
def useSelectionStep {T : Type} (c : Config T) (b : Builder T) : Builder T :=
  match resolvedSelectionMode c with
  | SelectionMode.noneMode =>
      b.use (Ext.selection (some { mode := some SelectionMode.noneMode }))
  | _ => b.use (Ext.selection c.selection)

/-- Mount step `if (scrollbarConfig !== "none") builder.use(withScrollbar(
typeof scrollbarConfig === "object" ? scrollbarConfig : {}))`. -/
def useScrollbarStep {T : Type} (c : Config T) (b : Builder T) : Builder T :=
  match resolvedScrollbar c with
  | some ScrollbarValue.noneStr => b
  | some (ScrollbarValue.obj o) => b.use (Ext.scrollbar o)
  | _ => b.use (Ext.scrollbar {})

/-- The mount-time build of useVList, given the already-dereferenced
configuration and a populated container handle: seeds the builder with
the spread of the configuration plus the container, applies the
conditional and unconditional extension steps in source order, and
finalizes the builder into the instance that gets published. -/
def useVListOnMounted {T : Type} (c : Config T) (container : Nat) : Instance T :=
  let b := vlistInit (spreadWithContainer c container)
  let b := usePageStep c b
  let b := useAsyncStep c b
  let b := useGridStep c b
  let b := useSectionsStep c b
  let b := useSelectionStep c b
  let b := b.use Ext.scale
  let b := useScrollbarStep c b
  let b := b.use Ext.snapshots
  b.build

/-- Mutable state owned by one useVList invocation: the container ref, the
published instance ref, and a log of engine destroy calls made so far
(the engine `destroy` method is external; the log records each call). -/
structure HookState (T : Type) where
  containerRef : Option Nat := none
  inst : Option (Instance T) := none
  destroyLog : List (Instance T) := []

/-- The onMounted callback: reads the container ref; when it is empty the
callback returns immediately (state unchanged, nothing built); otherwise
builds the instance and publishes it.  The second component reports the
instance built during this call, if any. -/
def onMountedStep {T : Type} (c : Config T) (s : HookState T) :
    HookState T × Option (Instance T) :=
  match s.containerRef with
  | none => (s, none)
  | some container =>
      let built := useVListOnMounted c container
      ({ s with inst := some built }, some built)

/-- The onBeforeUnmount callback: `instance.value?.destroy()` calls destroy
only when an instance is published (recorded in the destroy log), then
`instance.value = null` clears the reference unconditionally. -/
def onBeforeUnmountStep {T : Type} (s : HookState T) : HookState T :=
  match s.inst with
  | some i => { s with inst := none, destroyLog := s.destroyLog ++ [i] }
  | none => { s with inst := none }

/-- Input to useVList: a plain configuration object or a reactive ref
holding one (its current value). -/
inductive ConfigInput (T : Type)
  | plain (c : Config T)
  | reactiveRef (c : Config T)

/-- Vue `unref`: the current configuration value of either input form. -/
def unrefInput {T : Type} : ConfigInput T → Config T
  | ConfigInput.plain c => c
  | ConfigInput.reactiveRef c => c

/-- Vue `isRef` on the configuration input. -/
def isRefInput {T : Type} : ConfigInput T → Bool
  | ConfigInput.plain _ => false
  | ConfigInput.reactiveRef _ => true

/-- Whether useVList installs the items watcher:
`if (isRef(configInput)) watch(...)`. -/
def itemsWatcherInstalled {T : Type} (ci : ConfigInput T) : Bool :=
  isRefInput ci

/-- Body of the items watcher, run once per observed change of the items
field: `if (instance.value && newItems) instance.value.setItems(newItems)`.
Returns the payload of the single setItems call made for this change, if
any.  Note that in JavaScript every array, the empty one included, is
truthy; only `undefined` (modelled as `none`) fails the check. -/
def itemsWatchCallback {T : Type} (s : HookState T) (newItems : Option (List T)) :
    Option (List T) :=
  match s.inst, newItems with
  | some _, some xs => some xs
  | _, _ => none

/-- Body of the useVListEvent watcher, run once per observed value of the
instance reference: returns without registering when the instance is
empty, otherwise registers the wrapped handler on the instance.  The
accumulator collects the instances a registration was made on, in order. -/
def useVListEventCallback {T : Type} (subs : List (Instance T))
    (currentInst : Option (Instance T)) : List (Instance T) :=
  match currentInst with
  | none => subs
  | some i => subs ++ [i]

/-- The useVListEvent watcher over time: with `immediate: true` the
callback runs once at registration with the current value of the
instance reference, then once per subsequent change.  Returns the list of
instances the handler was registered on. -/
def useVListEventRun {T : Type} (registrationValue : Option (Instance T))
    (changes : List (Option (Instance T))) : List (Instance T) :=
  List.foldl useVListEventCallback (useVListEventCallback [] registrationValue) changes

/-- The wrapped handler registered on the instance: reads the current value
of the handler ref at call time and applies it to the payload. -/
def wrappedHandler {P R : Type} (handlerRefValue : P → R) (payload : P) : R :=
  handlerRefValue payload

/-- Concrete row template for witness configurations. -/
def natTemplate : Nat → String := fun _ => "row"

/-- Minimal concrete configuration over Nat items. -/
def cfg0 : Config Nat :=
  { item := { height := 48, template := natTemplate } }

/-- Instance built from the minimal configuration on container 0. -/
def inst0 : Instance Nat := useVListOnMounted cfg0 0

/-- Hook state right before mount with a populated container handle. -/
def stReady : HookState Nat := { containerRef := some 0 }

/-- Hook state with a populated container and a published instance. -/
def stMounted : HookState Nat := { containerRef := some 0, inst := some inst0 }

/-- Extensions the page step appends. -/
def pageSeg {T : Type} (c : Config T) : List (Ext T) :=
  if c.scroll.bind ScrollConfig.element = some ScrollElement.window then [Ext.page]
  else []

/-- Extensions the async step appends. -/
def asyncSeg {T : Type} (c : Config T) : List (Ext T) :=
  match c.adapter with
  | some ad => [Ext.async { adapter := ad, loading := c.loading }]
  | none => []

/-- Extensions the grid step appends. -/
def gridSeg {T : Type} (c : Config T) : List (Ext T) :=
  match c.layout, c.grid with
  | some Layout.grid, some g => [Ext.grid g]
  | _, _ => []

/-- Extensions the sections step appends. -/
def sectionsSeg {T : Type} (c : Config T) : List (Ext T) :=
  match c.groups with
  | some g =>
      [Ext.sections
        { getGroupForIndex := g.getGroupForIndex
          headerHeight := resolveHeaderHeight g.headerHeight
          headerTemplate := g.headerTemplate
          sticky := g.sticky }]
  | none => []

/-- The selection extension the selection step appends (always one). -/
def selectionExtOf {T : Type} (c : Config T) : Ext T :=
  match resolvedSelectionMode c with
  | SelectionMode.noneMode =>
      Ext.selection (some { mode := some SelectionMode.noneMode })
  | _ => Ext.selection c.selection

/-- Extensions the scrollbar step appends. -/
def scrollbarSeg {T : Type} (c : Config T) : List (Ext T) :=
  match resolvedScrollbar c with
  | some ScrollbarValue.noneStr => []
  | some (ScrollbarValue.obj o) => [Ext.scrollbar o]
  | _ => [Ext.scrollbar {}]

/-- Concrete header-height function for the groups witness. -/
def hfn0 : String → Nat → Nat := fun _ n => n + 30

/-- Concrete groups configuration with a function-valued header height. -/
def gr0 : GroupsConfig :=
  { getGroupForIndex := fun n => if n < 2 then "a" else "b"
    headerHeight := some (HeaderHeight.fn hfn0)
    headerTemplate := some (fun s => s)
    sticky := some true }

/-- Configuration with a groups section, for the sections witness. -/
def cfgGroups : Config Nat :=
  { item := { height := 48, template := natTemplate }, groups := some gr0 }

/-- Selection configuration with a non-none mode and extra options. -/
def selCfg0 : SelectionConfig :=
  { mode := some SelectionMode.multiple, extra := some 3 }

/-- Configuration with multiple-selection, for the selection witness. -/
def cfgSel : Config Nat :=
  { item := { height := 48, template := natTemplate }, selection := some selCfg0 }

/-- Configuration disabling the scrollbar through the scroll override. -/
def cfgSbNone : Config Nat :=
  { item := { height := 48, template := natTemplate }
    scroll := some { scrollbar := some ScrollbarValue.noneStr } }

/-- Empty hook state: no container handle, no published instance. -/
def stEmpty : HookState Nat := {}

theorem Builder.use_exts {T : Type} (b : Builder T) (e : Ext T) :
    (b.use e).exts = b.exts ++ [e] := rfl

theorem Builder.use_seed {T : Type} (b : Builder T) (e : Ext T) :
    (b.use e).seed = b.seed := rfl

theorem usePageStep_exts {T : Type} (c : Config T) (b : Builder T) :
    (usePageStep c b).exts = b.exts ++ pageSeg c := by
  unfold usePageStep pageSeg
  split <;> simp [Builder.use]

theorem useAsyncStep_exts {T : Type} (c : Config T) (b : Builder T) :
    (useAsyncStep c b).exts = b.exts ++ asyncSeg c := by
  unfold useAsyncStep asyncSeg
  cases c.adapter <;> simp [Builder.use]

theorem useGridStep_exts {T : Type} (c : Config T) (b : Builder T) :
    (useGridStep c b).exts = b.exts ++ gridSeg c := by
  unfold useGridStep gridSeg
  cases hl : c.layout with
  | none => simp
  | some l =>
      cases l <;> cases c.grid <;> simp [Builder.use]

theorem useSectionsStep_exts {T : Type} (c : Config T) (b : Builder T) :
    (useSectionsStep c b).exts = b.exts ++ sectionsSeg c := by
  unfold useSectionsStep sectionsSeg
  cases c.groups <;> simp [Builder.use]

theorem useSelectionStep_exts {T : Type} (c : Config T) (b : Builder T) :
    (useSelectionStep c b).exts = b.exts ++ [selectionExtOf c] := by
  unfold useSelectionStep selectionExtOf
  cases resolvedSelectionMode c <;> simp [Builder.use]

theorem useScrollbarStep_exts {T : Type} (c : Config T) (b : Builder T) :
    (useScrollbarStep c b).exts = b.exts ++ scrollbarSeg c := by
  unfold useScrollbarStep scrollbarSeg
  cases hv : resolvedScrollbar c with
  | none => simp [Builder.use]
  | some v => cases v <;> simp [Builder.use]

theorem usePageStep_seed {T : Type} (c : Config T) (b : Builder T) :
    (usePageStep c b).seed = b.seed := by
  unfold usePageStep
  split <;> rfl

theorem useAsyncStep_seed {T : Type} (c : Config T) (b : Builder T) :
    (useAsyncStep c b).seed = b.seed := by
  unfold useAsyncStep
  cases c.adapter <;> rfl

theorem useGridStep_seed {T : Type} (c : Config T) (b : Builder T) :
    (useGridStep c b).seed = b.seed := by
  unfold useGridStep
  cases hl : c.layout with
  | none => rfl
  | some l => cases l <;> cases c.grid <;> rfl

theorem useSectionsStep_seed {T : Type} (c : Config T) (b : Builder T) :
    (useSectionsStep c b).seed = b.seed := by
  unfold useSectionsStep
  cases c.groups <;> rfl

theorem useSelectionStep_seed {T : Type} (c : Config T) (b : Builder T) :
    (useSelectionStep c b).seed = b.seed := by
  unfold useSelectionStep
  cases resolvedSelectionMode c <;> rfl

theorem useScrollbarStep_seed {T : Type} (c : Config T) (b : Builder T) :
    (useScrollbarStep c b).seed = b.seed := by
  unfold useScrollbarStep
  cases hv : resolvedScrollbar c with
  | none => rfl
  | some v => cases v <;> rfl

/-- Normal form of the extension list of the built instance: the segments
contributed by each step, concatenated in source order. -/
theorem useVListOnMounted_exts {T : Type} (c : Config T) (container : Nat) :
    (useVListOnMounted c container).exts =
      pageSeg c ++ asyncSeg c ++ gridSeg c ++ sectionsSeg c ++
        [selectionExtOf c] ++ [Ext.scale] ++ scrollbarSeg c ++ [Ext.snapshots] := by
  unfold useVListOnMounted
  simp [Builder.build, Builder.use_exts, usePageStep_exts, useAsyncStep_exts,
    useGridStep_exts, useSectionsStep_exts, useSelectionStep_exts,
    useScrollbarStep_exts, vlistInit]

/-- The configuration of the built instance is the seed: the spread of the
input configuration plus the container handle. -/
theorem useVListOnMounted_config {T : Type} (c : Config T) (container : Nat) :
    (useVListOnMounted c container).config = spreadWithContainer c container := by
  unfold useVListOnMounted
  simp [Builder.build, Builder.use_seed, usePageStep_seed, useAsyncStep_seed,
    useGridStep_seed, useSectionsStep_seed, useSelectionStep_seed,
    useScrollbarStep_seed, vlistInit]

theorem selectionExtOf_kind {T : Type} (c : Config T) :
    (selectionExtOf c).kind = ExtKind.selection := by
  unfold selectionExtOf
  cases resolvedSelectionMode c <;> rfl

theorem mem_pageSeg_kinds {T : Type} (c : Config T) (k : ExtKind) :
    k ∈ (pageSeg c).map Ext.kind ↔
      (c.scroll.bind ScrollConfig.element = some ScrollElement.window ∧
        k = ExtKind.page) := by
  unfold pageSeg
  split <;> simp_all [Ext.kind]

theorem mem_asyncSeg_kinds {T : Type} (c : Config T) (k : ExtKind) :
    k ∈ (asyncSeg c).map Ext.kind ↔ (c.adapter.isSome ∧ k = ExtKind.async) := by
  unfold asyncSeg
  cases c.adapter <;> simp [Ext.kind]

theorem mem_gridSeg_kinds {T : Type} (c : Config T) (k : ExtKind) :
    k ∈ (gridSeg c).map Ext.kind ↔
      (c.layout = some Layout.grid ∧ c.grid.isSome ∧ k = ExtKind.grid) := by
  unfold gridSeg
  cases hl : c.layout with
  | none => simp
  | some l => cases l <;> cases c.grid <;> simp [Ext.kind]

theorem mem_sectionsSeg_kinds {T : Type} (c : Config T) (k : ExtKind) :
    k ∈ (sectionsSeg c).map Ext.kind ↔ (c.groups.isSome ∧ k = ExtKind.sections) := by
  unfold sectionsSeg
  cases c.groups <;> simp [Ext.kind]

theorem mem_scrollbarSeg_kinds {T : Type} (c : Config T) (k : ExtKind) :
    k ∈ (scrollbarSeg c).map Ext.kind ↔
      (resolvedScrollbar c ≠ some ScrollbarValue.noneStr ∧ k = ExtKind.scrollbar) := by
  unfold scrollbarSeg
  cases hv : resolvedScrollbar c with
  | none => simp [Ext.kind]
  | some v => cases v <;> simp [Ext.kind]

/-- Normal form of the kinds of the applied extensions. -/
theorem useVListOnMounted_kinds {T : Type} (c : Config T) (container : Nat) :
    (useVListOnMounted c container).exts.map Ext.kind =
      (pageSeg c).map Ext.kind ++ (asyncSeg c).map Ext.kind ++
      (gridSeg c).map Ext.kind ++ (sectionsSeg c).map Ext.kind ++
      [ExtKind.selection] ++ [ExtKind.scale] ++
      (scrollbarSeg c).map Ext.kind ++ [ExtKind.snapshots] := by
  cases hm : resolvedSelectionMode c <;>
    simp [useVListOnMounted_exts, Ext.kind, selectionExtOf, hm]

theorem pageSeg_kinds_sublist {T : Type} (c : Config T) :
    List.Sublist ((pageSeg c).map Ext.kind) [ExtKind.page] := by
  unfold pageSeg
  split <;> simp [Ext.kind]

theorem asyncSeg_kinds_sublist {T : Type} (c : Config T) :
    List.Sublist ((asyncSeg c).map Ext.kind) [ExtKind.async] := by
  unfold asyncSeg
  cases c.adapter <;> simp [Ext.kind]

theorem gridSeg_kinds_sublist {T : Type} (c : Config T) :
    List.Sublist ((gridSeg c).map Ext.kind) [ExtKind.grid] := by
  unfold gridSeg
  cases hl : c.layout with
  | none => simp
  | some l => cases l <;> cases c.grid <;> simp [Ext.kind]

theorem sectionsSeg_kinds_sublist {T : Type} (c : Config T) :
    List.Sublist ((sectionsSeg c).map Ext.kind) [ExtKind.sections] := by
  unfold sectionsSeg
  cases c.groups <;> simp [Ext.kind]

theorem scrollbarSeg_kinds_sublist {T : Type} (c : Config T) :
    List.Sublist ((scrollbarSeg c).map Ext.kind) [ExtKind.scrollbar] := by
  unfold scrollbarSeg
  cases hv : resolvedScrollbar c with
  | none => simp [Ext.kind]
  | some v => cases v <;> simp [Ext.kind]

/-- The kinds of the applied extensions, in order, form a sublist of the
full fixed order page, async, grid, sections, selection, scale,
scrollbar, snapshots. -/
theorem useVListOnMounted_kinds_sublist {T : Type} (c : Config T) (container : Nat) :
    List.Sublist ((useVListOnMounted c container).exts.map Ext.kind)
      [ExtKind.page, ExtKind.async, ExtKind.grid, ExtKind.sections,
       ExtKind.selection, ExtKind.scale, ExtKind.scrollbar, ExtKind.snapshots] := by
  rw [useVListOnMounted_kinds]
  have hfull :
      ([ExtKind.page, ExtKind.async, ExtKind.grid, ExtKind.sections,
        ExtKind.selection, ExtKind.scale, ExtKind.scrollbar, ExtKind.snapshots] :
          List ExtKind) =
        [ExtKind.page] ++ [ExtKind.async] ++ [ExtKind.grid] ++ [ExtKind.sections] ++
          [ExtKind.selection] ++ [ExtKind.scale] ++ [ExtKind.scrollbar] ++
          [ExtKind.snapshots] := rfl
  rw [hfull]
  exact (((((((pageSeg_kinds_sublist c).append (asyncSeg_kinds_sublist c)).append
    (gridSeg_kinds_sublist c)).append (sectionsSeg_kinds_sublist c)).append
    (List.Sublist.refl _)).append (List.Sublist.refl _)).append
    (scrollbarSeg_kinds_sublist c)).append (List.Sublist.refl _)

theorem pageSeg_kind_eq {T : Type} (c : Config T) :
    ∀ e ∈ pageSeg c, Ext.kind e = ExtKind.page := by
  intro e he
  unfold pageSeg at he
  split at he <;> simp_all [Ext.kind]

theorem asyncSeg_kind_eq {T : Type} (c : Config T) :
    ∀ e ∈ asyncSeg c, Ext.kind e = ExtKind.async := by
  intro e he
  unfold asyncSeg at he
  split at he <;> simp_all [Ext.kind]

theorem gridSeg_kind_eq {T : Type} (c : Config T) :
    ∀ e ∈ gridSeg c, Ext.kind e = ExtKind.grid := by
  intro e he
  unfold gridSeg at he
  split at he <;> simp_all [Ext.kind]

theorem sectionsSeg_kind_eq {T : Type} (c : Config T) :
    ∀ e ∈ sectionsSeg c, Ext.kind e = ExtKind.sections := by
  intro e he
  unfold sectionsSeg at he
  split at he <;> simp_all [Ext.kind]

theorem selectionSeg_kind_eq {T : Type} (c : Config T) :
    ∀ e ∈ ([selectionExtOf c] : List (Ext T)), Ext.kind e = ExtKind.selection := by
  intro e he
  simp at he
  subst he
  exact selectionExtOf_kind c

theorem scaleSeg_kind_eq {T : Type} :
    ∀ e ∈ ([Ext.scale] : List (Ext T)), Ext.kind e = ExtKind.scale := by
  intro e he
  simp at he
  subst he
  rfl

theorem snapshotsSeg_kind_eq {T : Type} :
    ∀ e ∈ ([Ext.snapshots] : List (Ext T)), Ext.kind e = ExtKind.snapshots := by
  intro e he
  simp at he
  subst he
  rfl

theorem scrollbarSeg_kind_eq {T : Type} (c : Config T) :
    ∀ e ∈ scrollbarSeg c, Ext.kind e = ExtKind.scrollbar := by
  intro e he
  unfold scrollbarSeg at he
  split at he <;> simp_all [Ext.kind]

theorem filter_kind_eq_nil {T : Type} {k k0 : ExtKind} (l : List (Ext T))
    (hl : ∀ e ∈ l, Ext.kind e = k0) (hne : k0 ≠ k) :
    l.filter (fun e => e.kind == k) = [] := by
  rw [List.filter_eq_nil_iff]
  intro e he
  simp [hl e he, hne]

theorem filter_kind_eq_self {T : Type} {k : ExtKind} (l : List (Ext T))
    (hl : ∀ e ∈ l, Ext.kind e = k) :
    l.filter (fun e => e.kind == k) = l := by
  rw [List.filter_eq_self]
  intro e he
  simp [hl e he]

/-- The sections extensions among the applied ones are exactly the sections
segment. -/
theorem useVListOnMounted_filter_sections {T : Type} (c : Config T) (container : Nat) :
    (useVListOnMounted c container).exts.filter (fun e => e.kind == ExtKind.sections) =
      sectionsSeg c := by
  rw [useVListOnMounted_exts]
  simp only [List.filter_append]
  rw [filter_kind_eq_nil _ (pageSeg_kind_eq c) (by decide),
    filter_kind_eq_nil _ (asyncSeg_kind_eq c) (by decide),
    filter_kind_eq_nil _ (gridSeg_kind_eq c) (by decide),
    filter_kind_eq_self _ (sectionsSeg_kind_eq c),
    filter_kind_eq_nil _ (selectionSeg_kind_eq c) (by decide),
    filter_kind_eq_nil _ scaleSeg_kind_eq (by decide),
    filter_kind_eq_nil _ (scrollbarSeg_kind_eq c) (by decide),
    filter_kind_eq_nil _ snapshotsSeg_kind_eq (by decide)]
  simp

/-- The selection extensions among the applied ones are exactly the one the
selection step appended. -/
theorem useVListOnMounted_filter_selection {T : Type} (c : Config T) (container : Nat) :
    (useVListOnMounted c container).exts.filter (fun e => e.kind == ExtKind.selection) =
      [selectionExtOf c] := by
  rw [useVListOnMounted_exts]
  simp only [List.filter_append]
  rw [filter_kind_eq_nil _ (pageSeg_kind_eq c) (by decide),
    filter_kind_eq_nil _ (asyncSeg_kind_eq c) (by decide),
    filter_kind_eq_nil _ (gridSeg_kind_eq c) (by decide),
    filter_kind_eq_nil _ (sectionsSeg_kind_eq c) (by decide),
    filter_kind_eq_self _ (selectionSeg_kind_eq c),
    filter_kind_eq_nil _ scaleSeg_kind_eq (by decide),
    filter_kind_eq_nil _ (scrollbarSeg_kind_eq c) (by decide),
    filter_kind_eq_nil _ snapshotsSeg_kind_eq (by decide)]
  simp

/-- The scrollbar extensions among the applied ones are exactly the
scrollbar segment. -/
theorem useVListOnMounted_filter_scrollbar {T : Type} (c : Config T) (container : Nat) :
    (useVListOnMounted c container).exts.filter (fun e => e.kind == ExtKind.scrollbar) =
      scrollbarSeg c := by
  rw [useVListOnMounted_exts]
  simp only [List.filter_append]
  rw [filter_kind_eq_nil _ (pageSeg_kind_eq c) (by decide),
    filter_kind_eq_nil _ (asyncSeg_kind_eq c) (by decide),
    filter_kind_eq_nil _ (gridSeg_kind_eq c) (by decide),
    filter_kind_eq_nil _ (sectionsSeg_kind_eq c) (by decide),
    filter_kind_eq_nil _ (selectionSeg_kind_eq c) (by decide),
    filter_kind_eq_nil _ scaleSeg_kind_eq (by decide),
    filter_kind_eq_self _ (scrollbarSeg_kind_eq c),
    filter_kind_eq_nil _ snapshotsSeg_kind_eq (by decide)]
  simp

/-- Counting a kind among the applied kinds equals the length of the
kind-filtered extension list. -/
theorem count_kind_eq_length_filter {T : Type} (k : ExtKind) (l : List (Ext T)) :
    (l.map Ext.kind).count k = (l.filter (fun e => e.kind == k)).length := by
  induction l with
  | nil => rfl
  | cons hd tl ih =>
      by_cases h : Ext.kind hd = k <;>
        simp [List.count_cons, List.filter_cons, h, ih]

theorem useVListEventCallback_none_fold {T : Type} (pre : List (Option (Instance T)))
    (subs : List (Instance T)) (hpre : ∀ x ∈ pre, x = none) :
    List.foldl useVListEventCallback subs pre = subs := by
  induction pre generalizing subs with
  | nil => rfl
  | cons hd tl ih =>
      have hhd : hd = none := hpre hd (List.mem_cons_self hd tl)
      subst hhd
      exact ih subs fun x hx => hpre x (List.mem_cons_of_mem _ hx)

/-- C1: for every configuration, when the container handle is populated at
the mount signal, build-on-mount publishes exactly the one engine
instance it built, and destroy-on-unmount calls that instance's destroy
method (it is appended to the destroy log) and clears the published
reference to empty. -/
theorem C1_mount_builds_unmount_destroys {T : Type} (c : Config T) (s : HookState T)
    (container : Nat) (h : s.containerRef = some container) :
    (onMountedStep c s).1.inst = some (useVListOnMounted c container) ∧
    (onMountedStep c s).2 = some (useVListOnMounted c container) ∧
    (onBeforeUnmountStep (onMountedStep c s).1).inst = none ∧
    (onBeforeUnmountStep (onMountedStep c s).1).destroyLog =
      s.destroyLog ++ [useVListOnMounted c container] := by
  simp [onMountedStep, h, onBeforeUnmountStep]

/-- Witness for C1 at the minimal configuration and a populated container. -/
theorem C1_witness :
    (onMountedStep cfg0 stReady).1.inst = some (useVListOnMounted cfg0 0) ∧
    (onMountedStep cfg0 stReady).2 = some (useVListOnMounted cfg0 0) ∧
    (onBeforeUnmountStep (onMountedStep cfg0 stReady).1).inst = none ∧
    (onBeforeUnmountStep (onMountedStep cfg0 stReady).1).destroyLog =
      stReady.destroyLog ++ [useVListOnMounted cfg0 0] :=
  C1_mount_builds_unmount_destroys cfg0 stReady 0 rfl

/-- C2: for every configuration, the applied extensions respect the fixed
relative order page-scroll, async, grid, sections, selection, scale,
scrollbar, snapshots; each conditional extension is present exactly under
its condition, selection, scale and snapshots are always present, and
snapshots is the last extension applied before the builder is finalized
into the published instance. -/
theorem C2_extension_order {T : Type} (c : Config T) (container : Nat) :
    List.Pairwise (fun a b : Ext T => a.kind.rank < b.kind.rank)
      (useVListOnMounted c container).exts ∧
    (ExtKind.page ∈ (useVListOnMounted c container).exts.map Ext.kind ↔
      c.scroll.bind ScrollConfig.element = some ScrollElement.window) ∧
    (ExtKind.async ∈ (useVListOnMounted c container).exts.map Ext.kind ↔
      c.adapter.isSome) ∧
    (ExtKind.grid ∈ (useVListOnMounted c container).exts.map Ext.kind ↔
      (c.layout = some Layout.grid ∧ c.grid.isSome)) ∧
    (ExtKind.sections ∈ (useVListOnMounted c container).exts.map Ext.kind ↔
      c.groups.isSome) ∧
    ExtKind.selection ∈ (useVListOnMounted c container).exts.map Ext.kind ∧
    ExtKind.scale ∈ (useVListOnMounted c container).exts.map Ext.kind ∧
    (ExtKind.scrollbar ∈ (useVListOnMounted c container).exts.map Ext.kind ↔
      resolvedScrollbar c ≠ some ScrollbarValue.noneStr) ∧
    ExtKind.snapshots ∈ (useVListOnMounted c container).exts.map Ext.kind ∧
    ((useVListOnMounted c container).exts.map Ext.kind).getLast? =
      some ExtKind.snapshots := by
  refine ⟨?_, ?_, ?_, ?_, ?_, ?_, ?_, ?_, ?_, ?_⟩
  · have hmaster :
        List.Pairwise (fun a b : ExtKind => a.rank < b.rank)
          [ExtKind.page, ExtKind.async, ExtKind.grid, ExtKind.sections,
           ExtKind.selection, ExtKind.scale, ExtKind.scrollbar, ExtKind.snapshots] := by
      decide
    have hk : List.Pairwise (fun a b : ExtKind => a.rank < b.rank)
        ((useVListOnMounted c container).exts.map Ext.kind) :=
      List.Pairwise.sublist (useVListOnMounted_kinds_sublist c container) hmaster
    exact (List.pairwise_map (f := Ext.kind)).mp hk
  · simp only [useVListOnMounted_kinds, List.mem_append, mem_pageSeg_kinds,
      mem_asyncSeg_kinds, mem_gridSeg_kinds, mem_sectionsSeg_kinds,
      mem_scrollbarSeg_kinds, List.mem_singleton]
    simp
  · simp only [useVListOnMounted_kinds, List.mem_append, mem_pageSeg_kinds,
      mem_asyncSeg_kinds, mem_gridSeg_kinds, mem_sectionsSeg_kinds,
      mem_scrollbarSeg_kinds, List.mem_singleton]
    simp
  · simp only [useVListOnMounted_kinds, List.mem_append, mem_pageSeg_kinds,
      mem_asyncSeg_kinds, mem_gridSeg_kinds, mem_sectionsSeg_kinds,
      mem_scrollbarSeg_kinds, List.mem_singleton]
    simp
  · simp only [useVListOnMounted_kinds, List.mem_append, mem_pageSeg_kinds,
      mem_asyncSeg_kinds, mem_gridSeg_kinds, mem_sectionsSeg_kinds,
      mem_scrollbarSeg_kinds, List.mem_singleton]
    simp
  · simp only [useVListOnMounted_kinds, List.mem_append, List.mem_singleton]
    simp
  · simp only [useVListOnMounted_kinds, List.mem_append, List.mem_singleton]
    simp
  · simp only [useVListOnMounted_kinds, List.mem_append, mem_pageSeg_kinds,
      mem_asyncSeg_kinds, mem_gridSeg_kinds, mem_sectionsSeg_kinds,
      mem_scrollbarSeg_kinds, List.mem_singleton]
    simp
  · simp only [useVListOnMounted_kinds, List.mem_append, List.mem_singleton]
    simp
  · rw [useVListOnMounted_kinds]
    exact List.getLast?_concat _

/-- Witness for C2 at the minimal configuration. -/
theorem C2_witness :
    ExtKind.selection ∈ (useVListOnMounted cfg0 0).exts.map Ext.kind ∧
    ExtKind.scale ∈ (useVListOnMounted cfg0 0).exts.map Ext.kind ∧
    ((useVListOnMounted cfg0 0).exts.map Ext.kind).getLast? = some ExtKind.snapshots :=
  ⟨(C2_extension_order cfg0 0).2.2.2.2.2.1,
   (C2_extension_order cfg0 0).2.2.2.2.2.2.1,
   (C2_extension_order cfg0 0).2.2.2.2.2.2.2.2.2⟩

/-- C3: for every configuration with a groups configuration, exactly one
sections extension is attached, receiving the group-resolution function,
the header template, the sticky flag exactly as specified, and a
header height pre-resolved to a numeric value: a function-valued header
height is invoked once with the placeholder arguments "" and 0, a
numeric one is forwarded as is.  (This is the behaviour of the source
variant whose sections branch pre-resolves the header height.) -/
theorem C3_sections_forwarding {T : Type} (c : Config T) (container : Nat)
    (g : GroupsConfig) (hg : c.groups = some g) :
    (useVListOnMounted c container).exts.filter
        (fun e => e.kind == ExtKind.sections) =
      [Ext.sections
        { getGroupForIndex := g.getGroupForIndex
          headerHeight := resolveHeaderHeight g.headerHeight
          headerTemplate := g.headerTemplate
          sticky := g.sticky }] ∧
    (∀ f, g.headerHeight = some (HeaderHeight.fn f) →
      resolveHeaderHeight g.headerHeight = some (f "" 0)) ∧
    (∀ n, g.headerHeight = some (HeaderHeight.px n) →
      resolveHeaderHeight g.headerHeight = some n) ∧
    (g.headerHeight = none → resolveHeaderHeight g.headerHeight = none) := by
  refine ⟨?_, ?_, ?_, ?_⟩
  · rw [useVListOnMounted_filter_sections]
    simp [sectionsSeg, hg]
  · intro f hf
    rw [hf]
    rfl
  · intro n hn
    rw [hn]
    rfl
  · intro hn
    rw [hn]
    rfl

/-- Witness for C3 at a configuration with a function-valued header height. -/
theorem C3_witness :
    (useVListOnMounted cfgGroups 0).exts.filter
        (fun e => e.kind == ExtKind.sections) =
      [Ext.sections
        { getGroupForIndex := gr0.getGroupForIndex
          headerHeight := resolveHeaderHeight gr0.headerHeight
          headerTemplate := gr0.headerTemplate
          sticky := gr0.sticky }] ∧
    resolveHeaderHeight gr0.headerHeight = some (hfn0 "" 0) :=
  ⟨(C3_sections_forwarding cfgGroups 0 gr0 rfl).1,
   (C3_sections_forwarding cfgGroups 0 gr0 rfl).2.1 hfn0 rfl⟩

/-- C4 counterexample: with a live instance, a change of the items field to
the defined empty collection does make a setItems call (the empty array
is truthy in JavaScript), where the claim asserts no call is made. -/
theorem C4_counterexample :
    itemsWatchCallback stMounted (some ([] : List Nat)) ≠ none := by
  simp [itemsWatchCallback, stMounted]

/-- C4 (amended): when the configuration is a reactive cell, each observed
change of its items field makes exactly one setItems call with the new
collection when the collection is defined (empty included) and a live
instance exists; an undefined value, or the absence of a live instance,
makes no call; a plain configuration installs no items watcher. -/
theorem C4_items_sync_amended {T : Type} (ci : ConfigInput T) (s : HookState T)
    (xs : List T) :
    (s.inst.isSome = true → itemsWatchCallback s (some xs) = some xs) ∧
    (s.inst = none → itemsWatchCallback s (some xs) = none) ∧
    itemsWatchCallback s none = none ∧
    (itemsWatcherInstalled ci = true ↔ ∃ cc, ci = ConfigInput.reactiveRef cc) := by
  refine ⟨?_, ?_, ?_, ?_⟩
  · intro h
    cases hs : s.inst with
    | none => rw [hs] at h; simp at h
    | some i => simp [itemsWatchCallback, hs]
  · intro h
    simp [itemsWatchCallback, h]
  · cases hs : s.inst <;> simp [itemsWatchCallback, hs]
  · cases ci <;> simp [itemsWatcherInstalled, isRefInput]

/-- Witness for the amended C4: a live instance receives a defined non-empty
collection; an undefined items value makes no call. -/
theorem C4_witness :
    itemsWatchCallback stMounted (some [5]) = some [5] ∧
    itemsWatchCallback stMounted none = none :=
  ⟨(C4_items_sync_amended (ConfigInput.plain cfg0) stMounted [5]).1 rfl,
   (C4_items_sync_amended (ConfigInput.plain cfg0) stMounted [5]).2.2.1⟩

/-- C5: for every configuration, exactly one selection extension is
attached: with the full selection configuration when the resolved mode is
not "none", and with the explicit object carrying only mode "none"
otherwise. -/
theorem C5_selection_always_attached {T : Type} (c : Config T) (container : Nat) :
    ((useVListOnMounted c container).exts.map Ext.kind).count ExtKind.selection = 1 ∧
    (useVListOnMounted c container).exts.filter
        (fun e => e.kind == ExtKind.selection) = [selectionExtOf c] ∧
    (resolvedSelectionMode c ≠ SelectionMode.noneMode →
      selectionExtOf c = Ext.selection c.selection) ∧
    (resolvedSelectionMode c = SelectionMode.noneMode →
      selectionExtOf c =
        Ext.selection (some { mode := some SelectionMode.noneMode, extra := none })) := by
  refine ⟨?_, useVListOnMounted_filter_selection c container, ?_, ?_⟩
  · rw [count_kind_eq_length_filter, useVListOnMounted_filter_selection]
    rfl
  · intro h
    unfold selectionExtOf
    cases hm : resolvedSelectionMode c <;> simp_all
  · intro h
    unfold selectionExtOf
    rw [h]

/-- Witness for C5 at a multiple-selection configuration. -/
theorem C5_witness :
    ((useVListOnMounted cfgSel 0).exts.map Ext.kind).count ExtKind.selection = 1 ∧
    selectionExtOf cfgSel = Ext.selection (some selCfg0) :=
  ⟨(C5_selection_always_attached cfgSel 0).1,
   (C5_selection_always_attached cfgSel 0).2.2.1 (by decide)⟩

/-- C6: the scrollbar setting consults the scroll-specific override first
(when present and truthy) and falls back to the top-level option; the
resolved value "none" attaches no scrollbar extension, an object value
attaches the extension with that object, and any other resolved value,
both options absent included, attaches it with the empty options. -/
theorem C6_scrollbar_resolution {T : Type} (c : Config T) (container : Nat) :
    (∀ v, c.scroll.bind ScrollConfig.scrollbar = some v → v.truthy = true →
      resolvedScrollbar c = some v) ∧
    (c.scroll.bind ScrollConfig.scrollbar = none →
      resolvedScrollbar c = c.scrollbar) ∧
    (resolvedScrollbar c = some ScrollbarValue.noneStr →
      (useVListOnMounted c container).exts.filter
        (fun e => e.kind == ExtKind.scrollbar) = []) ∧
    (∀ o, resolvedScrollbar c = some (ScrollbarValue.obj o) →
      (useVListOnMounted c container).exts.filter
        (fun e => e.kind == ExtKind.scrollbar) = [Ext.scrollbar o]) ∧
    (resolvedScrollbar c = none →
      (useVListOnMounted c container).exts.filter
        (fun e => e.kind == ExtKind.scrollbar) = [Ext.scrollbar {}]) ∧
    (∀ b, resolvedScrollbar c = some (ScrollbarValue.toggle b) →
      (useVListOnMounted c container).exts.filter
        (fun e => e.kind == ExtKind.scrollbar) = [Ext.scrollbar {}]) := by
  refine ⟨?_, ?_, ?_, ?_, ?_, ?_⟩
  · intro v hv htr
    simp [resolvedScrollbar, jsOrScrollbar, hv, htr]
  · intro hnone
    simp [resolvedScrollbar, jsOrScrollbar, hnone]
  · intro h
    rw [useVListOnMounted_filter_scrollbar]
    simp [scrollbarSeg, h]
  · intro o h
    rw [useVListOnMounted_filter_scrollbar]
    simp [scrollbarSeg, h]
  · intro h
    rw [useVListOnMounted_filter_scrollbar]
    simp [scrollbarSeg, h]
  · intro b h
    rw [useVListOnMounted_filter_scrollbar]
    simp [scrollbarSeg, h]

/-- Witness for C6 at a configuration whose scroll override is "none". -/
theorem C6_witness :
    resolvedScrollbar cfgSbNone = some ScrollbarValue.noneStr ∧
    (useVListOnMounted cfgSbNone 0).exts.filter
      (fun e => e.kind == ExtKind.scrollbar) = [] :=
  ⟨(C6_scrollbar_resolution cfgSbNone 0).1 ScrollbarValue.noneStr rfl rfl,
   (C6_scrollbar_resolution cfgSbNone 0).2.2.1
     ((C6_scrollbar_resolution cfgSbNone 0).1 ScrollbarValue.noneStr rfl rfl)⟩

/-- C7: the event helper observes the instance reference immediately at
registration, so it registers the handler at once when the instance is
already non-empty, and registers it at the first later non-empty sighting
when it starts empty, with no caller action; the registered callback
delegates to the current value of the handler reference at call time. -/
theorem C7_event_helper {T P R : Type} (i : Instance T)
    (pre : List (Option (Instance T))) (hpre : ∀ x ∈ pre, x = none)
    (h : P → R) (p : P) :
    useVListEventRun (some i) ([] : List (Option (Instance T))) = [i] ∧
    useVListEventRun (none : Option (Instance T)) (pre ++ [some i]) = [i] ∧
    wrappedHandler h p = h p := by
  refine ⟨rfl, ?_, rfl⟩
  show List.foldl useVListEventCallback
    (useVListEventCallback [] none) (pre ++ [some i]) = [i]
  rw [List.foldl_append]
  rw [useVListEventCallback_none_fold pre (useVListEventCallback [] none) hpre]
  rfl

/-- Witness for C7: registration after two empty sightings, and immediate
registration, on the concrete instance. -/
theorem C7_witness :
    useVListEventRun (some inst0) ([] : List (Option (Instance Nat))) = [inst0] ∧
    useVListEventRun (none : Option (Instance Nat)) ([none, none] ++ [some inst0]) =
      [inst0] ∧
    wrappedHandler (fun n : Nat => n + 1) 4 = 5 :=
  C7_event_helper inst0 [none, none] (by simp) (fun n : Nat => n + 1) 4

/-- C8: when the container handle is empty at the mount signal, the mount
callback is a silent no-op: the state is unchanged and no instance is
built (the build report is empty), hence no builder, extension or engine
instance is created and the published reference stays as it was. -/
theorem C8_missing_container_noop {T : Type} (c : Config T) (s : HookState T)
    (h : s.containerRef = none) :
    onMountedStep c s = (s, none) := by
  simp [onMountedStep, h]

/-- Witness for C8 at the empty hook state. -/
theorem C8_witness : onMountedStep cfg0 stEmpty = (stEmpty, none) :=
  C8_missing_container_noop cfg0 stEmpty rfl

/-- C9: destroy-on-unmount always leaves the published reference empty, is
idempotent (a second consecutive run changes nothing), and calls the
engine destroy method only when an instance exists: with no instance the
state, its destroy log included, is untouched.  The optional chaining in
the source makes the callback total, so no run can throw. -/
theorem C9_destroy_idempotent {T : Type} (s : HookState T) :
    (onBeforeUnmountStep s).inst = none ∧
    onBeforeUnmountStep (onBeforeUnmountStep s) = onBeforeUnmountStep s ∧
    (s.inst = none →
      onBeforeUnmountStep s = s ∧
        (onBeforeUnmountStep s).destroyLog = s.destroyLog) := by
  rcases s with ⟨cr, oi, log⟩
  cases oi <;> simp [onBeforeUnmountStep]

/-- Witness for C9 at the empty hook state (unmount without prior mount). -/
theorem C9_witness :
    (onBeforeUnmountStep stEmpty).inst = none ∧
    onBeforeUnmountStep (onBeforeUnmountStep stEmpty) = onBeforeUnmountStep stEmpty ∧
    (onBeforeUnmountStep stEmpty = stEmpty ∧
      (onBeforeUnmountStep stEmpty).destroyLog = stEmpty.destroyLog) :=
  ⟨(C9_destroy_idempotent stEmpty).1,
   (C9_destroy_idempotent stEmpty).2.1,
   (C9_destroy_idempotent stEmpty).2.2 rfl⟩

/-- C10: the engine is constructed from a fresh copy of the configuration
extended with the container handle: the published instance's
configuration is the spread object, and the spread carries every field of
the caller's configuration unchanged plus the container.  In this pure
embedding the caller's record is never written, so non-mutation holds by
construction; the proved content is the copy semantics of the spread. -/
theorem C10_config_not_mutated {T : Type} (c : Config T) (container : Nat) :
    (useVListOnMounted c container).config = spreadWithContainer c container ∧
    (spreadWithContainer c container).item = c.item ∧
    (spreadWithContainer c container).items = c.items ∧
    (spreadWithContainer c container).layout = c.layout ∧
    (spreadWithContainer c container).grid = c.grid ∧
    (spreadWithContainer c container).groups = c.groups ∧
    (spreadWithContainer c container).selection = c.selection ∧
    (spreadWithContainer c container).scroll = c.scroll ∧
    (spreadWithContainer c container).scrollbar = c.scrollbar ∧
    (spreadWithContainer c container).adapter = c.adapter ∧
    (spreadWithContainer c container).loading = c.loading ∧
    (spreadWithContainer c container).container = container :=
  ⟨useVListOnMounted_config c container,
   rfl, rfl, rfl, rfl, rfl, rfl, rfl, rfl, rfl, rfl, rfl⟩

end VListVue
